import Mathlib

/-!
Shallow embedding of the client-side data-filtering, pagination and selection
logic of the chime-host-viewer frontend (src/frontend/viewer.js), together
with proofs of the behavioural properties of its filter engine, bulk loader,
load-state flag and lightbox navigation.

JavaScript numbers that carry scores, probabilities and magnitudes are
modelled as rationals; a field that may be null/undefined (or a filter input
whose parseFloat result is NaN) is modelled as an Option.
-/

/-- The nested best-candidate record entry.path.top1 as read by getTop1Pox:
only its pox field matters to the filter engine. -/
structure Top1Info where
  pox : Option ℚ
deriving DecidableEq

/-- The entry.path record: derived scores top1_pox and sum_top2_pox plus the
optional nested top1 record (viewer.js getTop1Pox / getSumTop2Pox). -/
structure PathInfo where
  top1_pox : Option ℚ
  top1 : Option Top1Info
  sum_top2_pox : Option ℚ
deriving DecidableEq

/-- One FRB event row of the index (viewer.js allEntries element); only the
fields the filter predicate reads are modelled. An absent path object
(entry.path || {}) is modelled as none. -/
structure Entry where
  frb_id : String
  path : Option PathInfo
deriving DecidableEq

/-- viewer.js getTop1Pox: returns path.top1_pox when it is a number, else
path.top1.pox when that is a number, else null. -/
def getTop1Pox (e : Entry) : Option ℚ :=
  match e.path with
  | none => none
  | some p =>
    match p.top1_pox with
    | some v => some v
    | none =>
      match p.top1 with
      | some t => t.pox
      | none => none

/-- viewer.js getSumTop2Pox: returns path.sum_top2_pox when it is a number,
else null. -/
def getSumTop2Pox (e : Entry) : Option ℚ :=
  match e.path with
  | none => none
  | some p => p.sum_top2_pox

/-- JavaScript String.prototype.includes: substring containment, modelled as
list-infix containment on the character lists. -/
def jsIncludes (s sub : String) : Bool :=
  decide (sub.toList <:+: s.toList)

/-- The sidebar filter inputs read by applyFilters: frbFilter is the trimmed,
lower-cased id substring (the empty string when the input is blank), and the
two numeric bounds are none exactly when parseFloat produced NaN. -/
structure FilterParams where
  frbFilter : String
  minTop1 : Option ℚ
  minSum : Option ℚ
deriving DecidableEq

/-- The minTop1 check of the applyFilters predicate (viewer.js line 597):
the row is rejected only when the bound is set (not NaN), the score is
present (not null), and the score is below the bound. -/
def passesMinTop1 : Option ℚ → Option ℚ → Bool
  | some m, some t => if t < m then false else true
  | _, _ => true

/-- The minSum check of the applyFilters predicate (viewer.js lines 601-610):
when the bound is set, a row whose sum_top2 score is absent, or present and
below the bound, is rejected. -/
def passesMinSum : Option ℚ → Option ℚ → Bool
  | some m, some s => if s < m then false else true
  | some _, none => false
  | none, _ => true

/-- The per-entry predicate of viewer.js applyFilters: substring match on the
lower-cased id when the id filter is nonempty, then the minTop1 check, then
the minSum check. -/
def eventPred (p : FilterParams) (e : Entry) : Bool :=
  (p.frbFilter == "" || jsIncludes e.frb_id.toLower p.frbFilter)
    && passesMinTop1 p.minTop1 (getTop1Pox e)
    && passesMinSum p.minSum (getSumTop2Pox e)

/-- viewer.js applyFilters, restricted to its pure core: filteredEntries is
allEntries filtered by the predicate, in input order. -/
def applyFilters (entries : List Entry) (p : FilterParams) : List Entry :=
  entries.filter (eventPred p)

/-- One PATH candidate row (viewer.js allCandidates element); only the fields
read by computeFilteredCandidates are modelled, with null fields as none. -/
structure Candidate where
  frb_id : String
  pox : Option ℚ
  mag : Option ℚ
deriving DecidableEq

/-- The candidate cut inputs read by computeFilteredCandidates; a bound is
none exactly when parseFloat of its input produced NaN. -/
structure Cuts where
  minPox : Option ℚ
  maxPox : Option ℚ
  maxMag : Option ℚ
deriving DecidableEq

/-- The minPox cut (viewer.js line 966): reject only when the bound is set,
pox is non-null, and pox is below the bound. -/
def cutMinPox : Option ℚ → Option ℚ → Bool
  | some m, some v => if v < m then false else true
  | _, _ => true

/-- The maxPox cut (viewer.js line 969): reject only when the bound is set,
pox is non-null, and pox is above the bound. -/
def cutMaxPox : Option ℚ → Option ℚ → Bool
  | some m, some v => if v > m then false else true
  | _, _ => true

/-- The maxMag cut (viewer.js line 972): reject only when the bound is set,
mag is non-null, and mag is above the bound. -/
def cutMaxMag : Option ℚ → Option ℚ → Bool
  | some m, some v => if v > m then false else true
  | _, _ => true

/-- The per-row predicate of viewer.js computeFilteredCandidates: the row's
frb_id must be in the allowed-id set built from filteredEntries, then the
three cut checks apply. -/
def candPred (allowed : List String) (cuts : Cuts) (row : Candidate) : Bool :=
  allowed.contains row.frb_id
    && cutMinPox cuts.minPox row.pox
    && cutMaxPox cuts.maxPox row.pox
    && cutMaxMag cuts.maxMag row.mag

/-- viewer.js computeFilteredCandidates, restricted to its pure core: an
empty (or missing) candidate store yields the empty list, otherwise the
store filtered by the row predicate. -/
def computeFilteredCandidates (rows : List Candidate) (allowed : List String)
    (cuts : Cuts) : List Candidate :=
  if rows.isEmpty then [] else rows.filter (candPred allowed cuts)

/-- A concrete event whose top1 score is absent, used to exercise the
minTop1 branch of applyFilters. -/
def entryNoTop1 : Entry :=
  { frb_id := "FRB20210101A", path := some { top1_pox := none, top1 := none, sum_top2_pox := none } }

/-- Concrete filter parameters with the minTop1 bound set and the other
filters unset. -/
def paramsMinTop1Set : FilterParams :=
  { frbFilter := "", minTop1 := some 1, minSum := none }

/-- C10: with no filter input set (empty id substring, both bounds NaN),
applyFilters is the identity on the event list. -/
theorem applyFilters_noFilter_identity (entries : List Entry) :
    applyFilters entries { frbFilter := "", minTop1 := none, minSum := none } = entries := by
  unfold applyFilters
  rw [List.filter_eq_self]
  intro e _
  rfl

/-- C3: applyFilters returns a sublist of its input (every element of the
result occurs in the input, in the same relative order), and filtering is
idempotent. -/
theorem applyFilters_sublist_idempotent (entries : List Entry) (p : FilterParams) :
    List.Sublist (applyFilters entries p) entries ∧
      applyFilters (applyFilters entries p) p = applyFilters entries p := by
  constructor
  · exact List.filter_sublist entries
  · unfold applyFilters
    rw [List.filter_filter]
    simp only [Bool.and_self]

/-- Helper: an absent top1 score always passes the minTop1 check, whatever
the bound is. -/
theorem passesMinTop1_none (m : Option ℚ) : passesMinTop1 m none = true := by
  cases m <;> rfl

/-- C1 counterexample: with the minTop1 bound set to 1 and an event whose
top1 score is absent, applyFilters keeps the event, so an event with no
numeric top1 score can appear in the filtered result while the bound is
set. -/
theorem applyFilters_absentTop1_counterexample :
    paramsMinTop1Set.minTop1 = some 1 ∧
      getTop1Pox entryNoTop1 = none ∧
      applyFilters [entryNoTop1] paramsMinTop1Set = [entryNoTop1] := by
  refine ⟨rfl, rfl, ?_⟩
  rfl

/-- C1 amended: when the minTop1 bound is set, an event whose top1 score is
absent is NOT excluded by that bound: whenever the event passes the id
substring check and the minSum check, it appears in the filtered result
regardless of the minTop1 bound. -/
theorem applyFilters_absentTop1_passes (entries : List Entry) (p : FilterParams) (e : Entry)
    (hmem : e ∈ entries)
    (htop1 : getTop1Pox e = none)
    (hid : (p.frbFilter == "" || jsIncludes e.frb_id.toLower p.frbFilter) = true)
    (hsum : passesMinSum p.minSum (getSumTop2Pox e) = true) :
    e ∈ applyFilters entries p := by
  unfold applyFilters
  rw [List.mem_filter]
  refine ⟨hmem, ?_⟩
  unfold eventPred
  rw [htop1, passesMinTop1_none, hid, hsum]
  rfl

/-- Witness for the amended C1 theorem at a concrete event and concrete
parameters with the minTop1 bound set. -/
theorem applyFilters_absentTop1_passes_witness :
    entryNoTop1 ∈ [entryNoTop1] ∧
      getTop1Pox entryNoTop1 = none ∧
      (paramsMinTop1Set.frbFilter == ""
        || jsIncludes entryNoTop1.frb_id.toLower paramsMinTop1Set.frbFilter) = true ∧
      passesMinSum paramsMinTop1Set.minSum (getSumTop2Pox entryNoTop1) = true ∧
      entryNoTop1 ∈ applyFilters [entryNoTop1] paramsMinTop1Set :=
  ⟨List.mem_singleton.mpr rfl, rfl, rfl, rfl,
    applyFilters_absentTop1_passes [entryNoTop1] paramsMinTop1Set entryNoTop1
      (List.mem_singleton.mpr rfl) rfl rfl rfl⟩

/-- C7: every row kept by computeFilteredCandidates has its frb_id in the
allowed-id set. -/
theorem computeFilteredCandidates_mem_allowed (rows : List Candidate)
    (allowed : List String) (cuts : Cuts) (row : Candidate)
    (h : row ∈ computeFilteredCandidates rows allowed cuts) :
    row.frb_id ∈ allowed := by
  unfold computeFilteredCandidates at h
  split at h
  · simp at h
  · have hp : candPred allowed cuts row = true := (List.mem_filter.mp h).2
    unfold candPred at hp
    have hc : allowed.contains row.frb_id = true := by
      cases hcontains : allowed.contains row.frb_id with
      | true => rfl
      | false => rw [hcontains] at hp; simp at hp
    exact List.mem_of_elem_eq_true hc


/-- A concrete candidate row whose event id is allowed and whose optional
fields are absent. -/
def candInAllowed : Candidate :=
  { frb_id := "FRB20210101A", pox := none, mag := none }

/-- Concrete cut parameters with no bound set. -/
def cutsNone : Cuts := { minPox := none, maxPox := none, maxMag := none }

/-- Witness for the C7 theorem at a concrete candidate list, allowed set and
cuts. -/
theorem computeFilteredCandidates_mem_allowed_witness :
    candInAllowed ∈ computeFilteredCandidates [candInAllowed] ["FRB20210101A"] cutsNone ∧
      candInAllowed.frb_id ∈ ["FRB20210101A"] :=
  ⟨by decide, computeFilteredCandidates_mem_allowed [candInAllowed] ["FRB20210101A"]
    cutsNone candInAllowed (by decide)⟩

/-- C2: a row allowed by the event-id check is excluded by the candidate
cuts only when one of its fields is present (non-null) and violates a set
bound: a null pox is never excluded by the pox bounds and a null mag is
never excluded by the mag bound. -/
theorem computeFilteredCandidates_null_passes (rows : List Candidate)
    (allowed : List String) (cuts : Cuts) (row : Candidate)
    (hmem : row ∈ rows)
    (hallowed : allowed.contains row.frb_id = true)
    (hexcl : row ∉ computeFilteredCandidates rows allowed cuts) :
    (∃ v m, row.pox = some v ∧ cuts.minPox = some m ∧ v < m) ∨
      (∃ v m, row.pox = some v ∧ cuts.maxPox = some m ∧ v > m) ∨
      (∃ v m, row.mag = some v ∧ cuts.maxMag = some m ∧ v > m) := by
  unfold computeFilteredCandidates at hexcl
  rw [if_neg (by simp [List.isEmpty_iff]; rintro rfl; simp at hmem)] at hexcl
  have hp : candPred allowed cuts row = false := by
    cases hc : candPred allowed cuts row with
    | false => rfl
    | true => exact absurd (List.mem_filter.mpr ⟨hmem, hc⟩) hexcl
  unfold candPred at hp
  rw [hallowed] at hp
  simp only [Bool.true_and, Bool.and_eq_false_iff] at hp
  rcases hp with (h1 | h2) | h3
  · left
    cases hm : cuts.minPox with
    | none => rw [hm] at h1; simp [cutMinPox] at h1
    | some m =>
      cases hv : row.pox with
      | none => rw [hm, hv] at h1; simp [cutMinPox] at h1
      | some v =>
        rw [hm, hv] at h1
        simp only [cutMinPox] at h1
        refine ⟨v, m, rfl, rfl, ?_⟩
        by_contra hlt
        rw [if_neg hlt] at h1
        simp at h1
  · right; left
    cases hm : cuts.maxPox with
    | none => rw [hm] at h2; simp [cutMaxPox] at h2
    | some m =>
      cases hv : row.pox with
      | none => rw [hm, hv] at h2; simp [cutMaxPox] at h2
      | some v =>
        rw [hm, hv] at h2
        simp only [cutMaxPox] at h2
        refine ⟨v, m, rfl, rfl, ?_⟩
        by_contra hlt
        rw [if_neg hlt] at h2
        simp at h2
  · right; right
    cases hm : cuts.maxMag with
    | none => rw [hm] at h3; simp [cutMaxMag] at h3
    | some m =>
      cases hv : row.mag with
      | none => rw [hm, hv] at h3; simp [cutMaxMag] at h3
      | some v =>
        rw [hm, hv] at h3
        simp only [cutMaxMag] at h3
        refine ⟨v, m, rfl, rfl, ?_⟩
        by_contra hlt
        rw [if_neg hlt] at h3
        simp at h3

/-- A concrete candidate with a present pox value below a set lower bound. -/
def candLowPox : Candidate :=
  { frb_id := "FRB20210101A", pox := some 0, mag := none }

/-- Concrete cuts with the pox lower bound set to 1. -/
def cutsMinPoxOne : Cuts := { minPox := some 1, maxPox := none, maxMag := none }

/-- Witness for the C2 theorem: a concrete allowed row is excluded, and the
theorem pins the exclusion on its present pox value violating the set lower
bound. -/
theorem computeFilteredCandidates_null_passes_witness :
    candLowPox ∈ [candLowPox] ∧
      (["FRB20210101A"].contains candLowPox.frb_id = true) ∧
      candLowPox ∉ computeFilteredCandidates [candLowPox] ["FRB20210101A"] cutsMinPoxOne ∧
      ((∃ v m, candLowPox.pox = some v ∧ cutsMinPoxOne.minPox = some m ∧ v < m) ∨
        (∃ v m, candLowPox.pox = some v ∧ cutsMinPoxOne.maxPox = some m ∧ v > m) ∨
        (∃ v m, candLowPox.mag = some v ∧ cutsMinPoxOne.maxMag = some m ∧ v > m)) :=
  ⟨by decide, by decide, by decide,
    computeFilteredCandidates_null_passes [candLowPox] ["FRB20210101A"] cutsMinPoxOne
      candLowPox (by decide) (by decide) (by decide)⟩

/-- The viewer.js paginationState object. -/
structure PaginationState where
  offset : Nat
  limit : Nat
  total : Nat
  hasMore : Bool
  currentPage : Nat
deriving DecidableEq

/-- The mutable candidate-related state of viewer.js: the candidate store,
its filtered view, the all-data-loaded flag and the pagination state. -/
structure ViewerState where
  allCandidates : List Candidate
  filteredCandidates : List Candidate
  allDataLoaded : Bool
  pagination : PaginationState
deriving DecidableEq

/-- Outcome of one fetch of /api/path-table as observed by loadPathTable:
a parsed page, a non-success HTTP status, or a thrown transport/parse
error. -/
inductive PageFetch where
  | ok (data : List Candidate) (offset : Nat) (limit : Nat) (total : Nat) (has_more : Bool)
  | httpError
  | thrown
deriving DecidableEq

/-- viewer.js loadPathTable as a state transition: a paginated load with
limit below 10000 first resets allDataLoaded; a non-ok status or a thrown
error then clears allCandidates and filteredCandidates; a successful fetch
replaces the store, updates paginationState and recomputes the filtered
candidates. -/
def loadPathTable (st : ViewerState) (limit : Nat) (fetch : PageFetch)
    (allowed : List String) (cuts : Cuts) : ViewerState :=
  let st1 :=
    if limit < 10000 then { st with allDataLoaded := false } else st
  match fetch with
  | PageFetch.httpError =>
    { st1 with allCandidates := [], filteredCandidates := [] }
  | PageFetch.thrown =>
    { st1 with allCandidates := [], filteredCandidates := [] }
  | PageFetch.ok data off lim tot hm =>
    { st1 with
      allCandidates := data,
      filteredCandidates := computeFilteredCandidates data allowed cuts,
      pagination :=
        { offset := off, limit := lim, total := tot, hasMore := hm,
          currentPage := off / lim + 1 } }

/-- A concrete viewer state that already holds one rendered candidate row. -/
def stWithData : ViewerState :=
  { allCandidates := [candInAllowed],
    filteredCandidates := [candInAllowed],
    allDataLoaded := false,
    pagination := { offset := 0, limit := 100, total := 1, hasMore := false, currentPage := 1 } }

/-- C4 counterexample: a failed single-page fetch does NOT leave the
previously rendered candidate data in place: starting from a state holding
one row, a non-success fetch leaves an empty candidate store. -/
theorem loadPathTable_failure_counterexample :
    stWithData.allCandidates ≠ [] ∧
      (loadPathTable stWithData 100 PageFetch.httpError [] cutsNone).allCandidates = [] := by
  constructor
  · decide
  · rfl

/-- C4 amended: when a single-page fetch fails, with a non-success HTTP
status or a thrown error, loadPathTable clears the candidate data:
allCandidates and filteredCandidates both become empty. -/
theorem loadPathTable_failure_clears (st : ViewerState) (limit : Nat)
    (fetch : PageFetch) (allowed : List String) (cuts : Cuts)
    (hfail : fetch = PageFetch.httpError ∨ fetch = PageFetch.thrown) :
    (loadPathTable st limit fetch allowed cuts).allCandidates = [] ∧
      (loadPathTable st limit fetch allowed cuts).filteredCandidates = [] := by
  rcases hfail with rfl | rfl <;> unfold loadPathTable <;>
    split <;> exact ⟨rfl, rfl⟩

/-- Witness for the amended C4 theorem at a concrete state and a concrete
failing fetch. -/
theorem loadPathTable_failure_clears_witness :
    (PageFetch.httpError = PageFetch.httpError ∨ PageFetch.httpError = PageFetch.thrown) ∧
      (loadPathTable stWithData 100 PageFetch.httpError [] cutsNone).allCandidates = [] ∧
      (loadPathTable stWithData 100 PageFetch.httpError [] cutsNone).filteredCandidates = [] :=
  ⟨Or.inl rfl,
    loadPathTable_failure_clears stWithData 100 PageFetch.httpError [] cutsNone (Or.inl rfl)⟩

/-- Result of one /api/path-table page fetch inside loadAllCandidates: a
parsed body carrying data, total and has_more, or a failure (non-ok status
or thrown error). -/
inductive PageResult where
  | ok (data : List Candidate) (total : Nat) (has_more : Bool)
  | err
deriving DecidableEq

/-- The batch loop of viewer.js loadAllCandidates: while offset is below the
pre-flight total, fetch the page at offset with batch size 10000; a failed
page aborts the whole loop with none; otherwise the page data is appended
and the loop continues at offset + 10000 unless has_more is false. -/
def bulkLoop (page : Nat → PageResult) (total offset : Nat)
    (acc : List Candidate) : Option (List Candidate) :=
  if h : offset < total then
    match page offset with
    | PageResult.err => none
    | PageResult.ok data _ has_more =>
      if has_more then bulkLoop page total (offset + 10000) (acc ++ data)
      else some (acc ++ data)
  else some acc
termination_by total - offset
decreasing_by omega

/-- Outcome of one run of loadAllCandidates as reported to the status
element: completed, failed with an error message, or declined by the user
at the large-load confirmation prompt. -/
inductive LoadOutcome where
  | success
  | error
  | aborted
deriving DecidableEq

/-- viewer.js loadAllCandidates as a state transition: a pre-flight count
query reads the total; above 50000 the user may decline; otherwise the
batch loop runs, and only on full success the store is replaced, the
allDataLoaded flag is set, pagination is rewritten and the filtered
candidates are recomputed. Any failure (count query or page fetch) reaches
the catch block: the state is untouched and an error is reported. -/
def loadAllCandidates (st : ViewerState) (confirm : Bool) (countQ : PageResult)
    (page : Nat → PageResult) (allowed : List String) (cuts : Cuts) :
    ViewerState × LoadOutcome :=
  match countQ with
  | PageResult.err => (st, LoadOutcome.error)
  | PageResult.ok _ total _ =>
    if total > 50000 && !confirm then (st, LoadOutcome.aborted)
    else
      match bulkLoop page total 0 [] with
      | none => (st, LoadOutcome.error)
      | some allData =>
        ({ st with
            allCandidates := allData,
            filteredCandidates := computeFilteredCandidates allData allowed cuts,
            allDataLoaded := true,
            pagination :=
              { st.pagination with
                offset := 0, limit := allData.length, total := allData.length,
                hasMore := false } },
          LoadOutcome.success)

/-- C5: if a page fetch during the bulk load fails (the batch loop yields
none) and the load was not declined at the confirmation prompt, then
loadAllCandidates discards the entire accumulation: the state is exactly
the pre-load state (so allCandidates and allDataLoaded are unchanged) and
an error is reported. -/
theorem loadAllCandidates_page_failure (st : ViewerState) (confirm : Bool)
    (d : List Candidate) (total : Nat) (hm : Bool) (page : Nat → PageResult)
    (allowed : List String) (cuts : Cuts)
    (hproceed : total ≤ 50000 ∨ confirm = true)
    (hfail : bulkLoop page total 0 [] = none) :
    loadAllCandidates st confirm (PageResult.ok d total hm) page allowed cuts
      = (st, LoadOutcome.error) := by
  simp only [loadAllCandidates]
  have hcond : (total > 50000 && !confirm) = false := by
    rcases hproceed with h | h
    · simp [Nat.not_lt.mpr h]
    · simp [h]
  rw [hcond]
  simp only [Bool.false_eq_true, if_false, hfail]

/-- A backend whose every page fetch fails. -/
def pageAllErr : Nat → PageResult := fun _ => PageResult.err

/-- Witness for the C5 theorem: a concrete bulk load whose first page fetch
fails leaves the concrete pre-load state untouched and reports an error. -/
theorem loadAllCandidates_page_failure_witness :
    ((1 : Nat) ≤ 50000 ∨ true = true) ∧
      bulkLoop pageAllErr 1 0 [] = none ∧
      loadAllCandidates stWithData true (PageResult.ok [] 1 true) pageAllErr [] cutsNone
        = (stWithData, LoadOutcome.error) :=
  ⟨Or.inl (by decide), by rw [bulkLoop]; rfl,
    loadAllCandidates_page_failure stWithData true [] 1 true pageAllErr [] cutsNone
      (Or.inl (by decide)) (by rw [bulkLoop]; rfl)⟩

/-- Consistency of the paginated backend: the count it reports is the true
number of rows, the page at each offset is the 10000-row slice of the row
list starting there, and has_more is true exactly when rows remain after
the page. -/
def consistentBackend (rows : List Candidate) (page : Nat → PageResult) : Prop :=
  ∀ offset, page offset =
    PageResult.ok ((rows.drop offset).take 10000) rows.length
      (decide (offset + 10000 < rows.length))

/-- Helper: against a consistent backend, the batch loop started at a
reached offset with the rows before that offset already accumulated returns
the full row list. -/
theorem bulkLoop_consistent (rows : List Candidate) (page : Nat → PageResult)
    (hp : consistentBackend rows page) :
    ∀ n offset, rows.length - offset ≤ n → offset ≤ rows.length →
      bulkLoop page rows.length offset (rows.take offset) = some rows := by
  intro n
  induction n with
  | zero =>
    intro offset h1 h2
    have heq : offset = rows.length := by omega
    rw [bulkLoop, dif_neg (by omega), heq, List.take_length]
  | succ n ih =>
    intro offset h1 h2
    rw [bulkLoop]
    by_cases hlt : offset < rows.length
    · rw [dif_pos hlt, hp offset]
      have hacc : rows.take offset ++ (rows.drop offset).take 10000
          = rows.take (offset + 10000) := (List.take_add rows offset 10000).symm
      simp only []
      by_cases hm : offset + 10000 < rows.length
      · rw [if_pos (by simpa using hm), hacc]
        exact ih (offset + 10000) (by omega) (by omega)
      · rw [if_neg (by simpa using hm), hacc,
          List.take_of_length_le (by omega)]
    · rw [dif_neg hlt]
      have heq : offset = rows.length := by omega
      rw [heq, List.take_length]

/-- C6: against a consistent backend, a confirmed (or small enough) bulk
load succeeds, the accumulated candidate list has length equal to the
pre-flight total, and the allDataLoaded flag is set. -/
theorem loadAllCandidates_complete (st : ViewerState) (confirm : Bool)
    (rows d : List Candidate) (hm : Bool) (page : Nat → PageResult)
    (allowed : List String) (cuts : Cuts)
    (hp : consistentBackend rows page)
    (hproceed : rows.length ≤ 50000 ∨ confirm = true) :
    (loadAllCandidates st confirm (PageResult.ok d rows.length hm) page allowed cuts).1.allCandidates.length
        = rows.length ∧
      (loadAllCandidates st confirm (PageResult.ok d rows.length hm) page allowed cuts).1.allDataLoaded
        = true ∧
      (loadAllCandidates st confirm (PageResult.ok d rows.length hm) page allowed cuts).2
        = LoadOutcome.success := by
  have hloop : bulkLoop page rows.length 0 [] = some rows := by
    have := bulkLoop_consistent rows page hp rows.length 0 (by omega) (by omega)
    simpa using this
  have hcond : (rows.length > 50000 && !confirm) = false := by
    rcases hproceed with h | h
    · simp [Nat.not_lt.mpr h]
    · simp [h]
  simp [loadAllCandidates, hcond, hloop]

/-- A consistent one-row backend used to witness the bulk-load completeness
theorem. -/
def pageOneRow : Nat → PageResult := fun offset =>
  PageResult.ok (([candInAllowed].drop offset).take 10000) 1
    (decide (offset + 10000 < 1))

/-- Witness for the C6 theorem: a concrete consistent backend with one row,
on which the confirmed bulk load loads exactly that row and sets the
flag. -/
theorem loadAllCandidates_complete_witness :
    consistentBackend [candInAllowed] pageOneRow ∧
      ([candInAllowed].length ≤ 50000 ∨ true = true) ∧
      (loadAllCandidates stWithData true (PageResult.ok [] [candInAllowed].length false)
          pageOneRow [] cutsNone).1.allCandidates.length = [candInAllowed].length ∧
      (loadAllCandidates stWithData true (PageResult.ok [] [candInAllowed].length false)
          pageOneRow [] cutsNone).1.allDataLoaded = true ∧
      (loadAllCandidates stWithData true (PageResult.ok [] [candInAllowed].length false)
          pageOneRow [] cutsNone).2 = LoadOutcome.success :=
  ⟨fun _ => rfl, Or.inr rfl,
    loadAllCandidates_complete stWithData true [candInAllowed] [] false pageOneRow [] cutsNone
      (fun _ => rfl) (Or.inr rfl)⟩

/-- The UI occurrences that can touch the viewer.js allDataLoaded flag: a
bulk load completing successfully, a bulk load failing or being declined, a
paginated loadPathTable call with some limit, the candidates-per-event mode
changing, a completed data-source switch, and any other occurrence. -/
inductive UiEvent where
  | bulkSuccess
  | bulkFailure
  | paginatedLoad (limit : Nat)
  | modeChange
  | sourceSwitch
  | other
deriving DecidableEq

/-- The effect of one UI occurrence on the allDataLoaded flag, read off
viewer.js: set on bulk completion (line 535), cleared on a paginated load
with limit below 10000 (lines 340-342), on a candidates-mode change (line
1198) and on a data-source switch (line 111), untouched otherwise. -/
def stepFlag (b : Bool) : UiEvent → Bool
  | UiEvent.bulkSuccess => true
  | UiEvent.bulkFailure => b
  | UiEvent.paginatedLoad limit => if limit < 10000 then false else b
  | UiEvent.modeChange => false
  | UiEvent.sourceSwitch => false
  | UiEvent.other => b

/-- The allDataLoaded flag after a trace of UI occurrences, from a given
initial value. -/
def runFlag (b : Bool) (tr : List UiEvent) : Bool :=
  tr.foldl stepFlag b

/-- Whether a UI occurrence resets the allDataLoaded flag to false: the
candidates-mode change, a paginated load with limit below the bulk batch
threshold 10000, and the data-source switch. -/
def isReset : UiEvent → Bool
  | UiEvent.paginatedLoad limit => decide (limit < 10000)
  | UiEvent.modeChange => true
  | UiEvent.sourceSwitch => true
  | _ => false

/-- Helper: the flag after a trace (read through its reversal) is set
exactly when a successful bulk completion appears among the occurrences
after the last reset occurrence. -/
theorem runFlag_reverse (u : List UiEvent) :
    runFlag false u.reverse
      = (u.takeWhile (fun e => !isReset e)).contains UiEvent.bulkSuccess := by
  induction u with
  | nil => rfl
  | cons e u ih =>
    rw [List.reverse_cons]
    have hstep : runFlag false (u.reverse ++ [e]) = stepFlag (runFlag false u.reverse) e := by
      unfold runFlag
      rw [List.foldl_append]
      rfl
    rw [hstep, ih]
    cases e with
    | bulkSuccess => simp [stepFlag, isReset, List.takeWhile_cons, beq_iff_eq]
    | bulkFailure => simp [stepFlag, isReset, List.takeWhile_cons, beq_iff_eq]
    | paginatedLoad limit =>
      by_cases hl : limit < 10000
      · simp [stepFlag, isReset, List.takeWhile_cons, hl, beq_iff_eq]
      · simp [stepFlag, isReset, List.takeWhile_cons, hl, beq_iff_eq]
    | modeChange => simp [stepFlag, isReset, List.takeWhile_cons, beq_iff_eq]
    | sourceSwitch => simp [stepFlag, isReset, List.takeWhile_cons, beq_iff_eq]
    | other => simp [stepFlag, isReset, List.takeWhile_cons, beq_iff_eq]

/-- C8: the allDataLoaded flag starts false, and after any trace of UI
occurrences it is set exactly when a successful bulk-load completion occurs
with no reset occurrence (mode change, paginated load below the 10000
threshold, or data-source switch) after it. -/
theorem allDataLoaded_only_after_bulk :
    runFlag false [] = false ∧
      ∀ tr : List UiEvent,
        runFlag false tr
          = (tr.reverse.takeWhile (fun e => !isReset e)).contains UiEvent.bulkSuccess := by
  refine ⟨rfl, fun tr => ?_⟩
  have := runFlag_reverse tr.reverse
  rwa [List.reverse_reverse] at this

/-- The image records captured by viewer.js for the lightbox. -/
structure LightboxImage where
  url : String
  frbId : String
  kind : String
  filename : String
deriving DecidableEq

/-- The viewer.js lightbox state: the captured image list and the current
index. -/
structure LightboxState where
  images : List LightboxImage
  currentIndex : Nat
deriving DecidableEq

/-- viewer.js lightboxPrev: decrement the index only when it is positive. -/
def lightboxPrev (st : LightboxState) : LightboxState :=
  if st.currentIndex > 0 then { st with currentIndex := st.currentIndex - 1 } else st

/-- viewer.js lightboxNext: increment the index only while it is below
length - 1. -/
def lightboxNext (st : LightboxState) : LightboxState :=
  if st.currentIndex < st.images.length - 1 then
    { st with currentIndex := st.currentIndex + 1 }
  else st

/-- C9: with a non-empty image list, prev at index 0 leaves the index at 0
and next at index length-1 leaves the index at length-1: navigation clamps,
with no wraparound. -/
theorem lightbox_clamps (st : LightboxState) (hne : st.images ≠ []) :
    (st.currentIndex = 0 → (lightboxPrev st).currentIndex = 0) ∧
      (st.currentIndex = st.images.length - 1 →
        (lightboxNext st).currentIndex = st.images.length - 1) := by
  constructor
  · intro h0
    unfold lightboxPrev
    rw [if_neg (by omega)]
    exact h0
  · intro hend
    unfold lightboxNext
    rw [if_neg (by omega)]
    exact hend

/-- A concrete one-image lightbox state at index 0 (which is also index
length-1). -/
def lightboxOne : LightboxState :=
  { images := [{ url := "u", frbId := "FRB20210101A", kind := "path-main", filename := "f.png" }],
    currentIndex := 0 }

/-- Witness for the C9 theorem at a concrete non-empty lightbox state. -/
theorem lightbox_clamps_witness :
    lightboxOne.images ≠ [] ∧
      ((lightboxOne.currentIndex = 0 → (lightboxPrev lightboxOne).currentIndex = 0) ∧
        (lightboxOne.currentIndex = lightboxOne.images.length - 1 →
          (lightboxNext lightboxOne).currentIndex = lightboxOne.images.length - 1)) :=
  ⟨by decide, lightbox_clamps lightboxOne (by decide)⟩
